import Mathlib

/-!
# MonoRange — a verified shallow embedding

This file embeds, in Lean 4, the algorithmic core of the MonoRange monocular
3D-detection repository:

* `SetCriterion` (bipartite matching + multi-task loss assembly) from
  `lib/models/monorange/monorange.py`;
* the output-assembly part of `monorange.forward`, `monorange.project_3d_to_2d`
  and the per-layer range computation from the same file;
* the label-encoding loop of `KITTI_Dataset.__getitem__` from
  `lib/datasets/kitti/kitti_dataset.py`.

Tensors are represented as (nested) lists of rationals or as total functions
from indices to rationals; floating-point arithmetic is modelled by exact
rational arithmetic.  Parts of the repository that the embedded code merely
calls (the backbone, the transformers, `affine_transform`,
`Calibration.rect_to_img`, `torch.exp`, the individual loss bodies seen from
`get_loss`) enter as explicit function parameters, so every definition below
mirrors the control flow and arithmetic of its source line by line.
-/

namespace MonoRange

/-- The table of the ten loss functions that `SetCriterion.get_loss` dispatches
to (source: the `loss_map` dictionary, `monorange.py` lines 557–568).  The
types of model outputs `O`, targets `T` and matcher indices `I` are abstract;
each loss returns a dictionary of named scalar losses.  `loss_labels` takes the
extra `log` keyword argument of the source. -/
structure LossFns (O T I : Type) : Type where
  loss_labels : O → T → I → ℚ → Bool → List (String × ℚ)
  loss_cardinality : O → T → I → ℚ → List (String × ℚ)
  loss_boxes : O → T → I → ℚ → List (String × ℚ)
  loss_ranges : O → T → I → ℚ → List (String × ℚ)
  loss_dims : O → T → I → ℚ → List (String × ℚ)
  loss_angles : O → T → I → ℚ → List (String × ℚ)
  loss_3dcenter : O → T → I → ℚ → List (String × ℚ)
  loss_range_map : O → T → I → ℚ → List (String × ℚ)
  loss_region : O → T → I → ℚ → List (String × ℚ)
  loss_cycle_consistency : O → T → I → ℚ → List (String × ℚ)

/-- Embedding of `SetCriterion.get_loss` (`monorange.py` lines 555–571): looks the loss name
up in `loss_map` and applies the matching function; a name outside the map
fails the `assert loss in loss_map` with the message of the source, modelled as
`Except.error`. -/
def SetCriterion.get_loss {O T I : Type} (fns : LossFns O T I) (loss : String)
    (outputs : O) (targets : T) (indices : I) (num_boxes : ℚ) (log : Bool) :
    Except String (List (String × ℚ)) :=
  if loss = "labels" then .ok (fns.loss_labels outputs targets indices num_boxes log)
  else if loss = "cardinality" then .ok (fns.loss_cardinality outputs targets indices num_boxes)
  else if loss = "boxes" then .ok (fns.loss_boxes outputs targets indices num_boxes)
  else if loss = "ranges" then .ok (fns.loss_ranges outputs targets indices num_boxes)
  else if loss = "dims" then .ok (fns.loss_dims outputs targets indices num_boxes)
  else if loss = "angles" then .ok (fns.loss_angles outputs targets indices num_boxes)
  else if loss = "center" then .ok (fns.loss_3dcenter outputs targets indices num_boxes)
  else if loss = "range_map" then .ok (fns.loss_range_map outputs targets indices num_boxes)
  else if loss = "region" then .ok (fns.loss_region outputs targets indices num_boxes)
  else if loss = "cycle_consistency" then
    .ok (fns.loss_cycle_consistency outputs targets indices num_boxes)
  else .error ("do you really want to compute " ++ loss ++ " loss?")

/-- The configuration fields of `SetCriterion` that its `forward` reads:
`self.losses`, `self.inter_losses` and `self.group_num`. -/
structure CriterionCfg where
  losses : List String
  inter_losses : List String
  group_num : ℕ

/-- The normalisation constant of `SetCriterion.forward`
(`monorange.py` lines 582–584):
`num_boxes = clamp((sum of label counts * group_num) / world_size, min=1)`. -/
def SetCriterion.num_boxes (labelCounts : List ℕ) (group_num : ℕ) (world_size : ℚ) : ℚ :=
  max (((labelCounts.sum * group_num : ℕ) : ℚ) / world_size) 1

/-- Embedding of `SetCriterion.forward` (`monorange.py` lines 573–616).  `matcher` stands
for `self.matcher` (called with outputs, targets and the `group_num` keyword),
`getLoss` for `self.get_loss` (last argument: the `log` kwarg, `True` unless
explicitly passed as `False`), `labelsLen t` for `len(t["labels"])`.
`outputs_main` is the output dict without its `aux_outputs` / `inter_outputs`
entries, which are passed separately.  The result is the `losses` dictionary as
an association list in insertion order: first the Det-2D (`inter`) entries
computed from `self.inter_losses` with keys suffixed `_inter_{i}`, then the
last-layer entries from `self.losses`, then for each auxiliary output the
entries from `self.losses` minus `range_map` and `region`, suffixed `_{i}`. -/
def SetCriterion.forward {O T I : Type}
    (cfg : CriterionCfg) (training : Bool) (world_size : ℚ)
    (matcher : O → List T → ℕ → I)
    (getLoss : String → O → List T → I → ℚ → Bool → List (String × ℚ))
    (labelsLen : T → ℕ)
    (outputs_main : O) (inter_outputs : List O) (aux_outputs : Option (List O))
    (targets : List T) : List (String × ℚ) :=
  let group_num := if training then cfg.group_num else 1
  let num_boxes := SetCriterion.num_boxes (targets.map labelsLen) group_num world_size
  let interPart := inter_outputs.enum.flatMap fun p =>
    let indices := matcher p.2 targets group_num
    cfg.inter_losses.flatMap fun loss =>
      (getLoss loss p.2 targets indices num_boxes true).map
        fun kv => (kv.1 ++ "_inter_" ++ toString p.1, kv.2)
  let indicesMain := matcher outputs_main targets group_num
  let mainPart := cfg.losses.flatMap fun loss =>
    getLoss loss outputs_main targets indicesMain num_boxes true
  let auxPart :=
    match aux_outputs with
    | none => []
    | some auxs => auxs.enum.flatMap fun p =>
        let indices := matcher p.2 targets group_num
        cfg.losses.flatMap fun loss =>
          if loss = "range_map" ∨ loss = "region" then []
          else
            (getLoss loss p.2 targets indices num_boxes
                (if loss = "labels" then false else true)).map
              fun kv => (kv.1 ++ "_" ++ toString p.1, kv.2)
  interPart ++ mainPart ++ auxPart

/-- The loss assembly exactly as the specification sentence words it: the
intermediate (`inter_outputs`) layers repeat the computation of every loss
named in `self.losses` (only the auxiliary layers skipping `range_map` and
`region`).  This differs from `SetCriterion.forward`, which runs
`self.inter_losses` over the intermediate layers. -/
def SetCriterion.forwardClaimed {O T I : Type}
    (cfg : CriterionCfg) (training : Bool) (world_size : ℚ)
    (matcher : O → List T → ℕ → I)
    (getLoss : String → O → List T → I → ℚ → Bool → List (String × ℚ))
    (labelsLen : T → ℕ)
    (outputs_main : O) (inter_outputs : List O) (aux_outputs : Option (List O))
    (targets : List T) : List (String × ℚ) :=
  let group_num := if training then cfg.group_num else 1
  let num_boxes := SetCriterion.num_boxes (targets.map labelsLen) group_num world_size
  let interPart := inter_outputs.enum.flatMap fun p =>
    let indices := matcher p.2 targets group_num
    cfg.losses.flatMap fun loss =>
      (getLoss loss p.2 targets indices num_boxes true).map
        fun kv => (kv.1 ++ "_inter_" ++ toString p.1, kv.2)
  let indicesMain := matcher outputs_main targets group_num
  let mainPart := cfg.losses.flatMap fun loss =>
    getLoss loss outputs_main targets indicesMain num_boxes true
  let auxPart :=
    match aux_outputs with
    | none => []
    | some auxs => auxs.enum.flatMap fun p =>
        let indices := matcher p.2 targets group_num
        cfg.losses.flatMap fun loss =>
          if loss = "range_map" ∨ loss = "region" then []
          else
            (getLoss loss p.2 targets indices num_boxes
                (if loss = "labels" then false else true)).map
              fun kv => (kv.1 ++ "_" ++ toString p.1, kv.2)
  interPart ++ mainPart ++ auxPart

/-- Embedding of `SetCriterion._get_src_permutation_idx` (`monorange.py` lines 543–547):
from the per-image matcher results it builds the flat list of
(batch index, source/query index) pairs, concatenated over the batch. -/
def SetCriterion.get_src_permutation_idx (indices : List (List ℕ × List ℕ)) :
    List (ℕ × ℕ) :=
  indices.enum.flatMap fun p => p.2.1.map fun s => (p.1, s)

/-- Embedding of `SetCriterion.loss_ranges` (`monorange.py` lines 451–464).  `exp` stands
for `torch.exp`; `pred_range` is the `outputs['pred_range']` tensor of shape
batch × query × 2, `target_range` the per-image `t['range']` tensors of shape
objects × 1.  Matched predictions are gathered through
`_get_src_permutation_idx`, matched targets by concatenating `t['range'][i]`
and squeezing the trailing singleton dimension; the per-pair term is
`1.4142 * exp(-σ) * |r − r_gt| + σ` and the result is the summed term divided
by `num_boxes`. -/
def SetCriterion.loss_ranges (exp : ℚ → ℚ)
    (pred_range : List (List (List ℚ)))
    (target_range : List (List (List ℚ)))
    (indices : List (List ℕ × List ℕ)) (num_boxes : ℚ) : List (String × ℚ) :=
  let src_ranges := (SetCriterion.get_src_permutation_idx indices).map
    fun bs => (pred_range.getD bs.1 []).getD bs.2 []
  let target_ranges := (indices.enum.flatMap fun p =>
    p.2.2.map fun t => (target_range.getD p.1 []).getD t []).map
      fun row => row.getD 0 0
  let terms := (src_ranges.zip target_ranges).map fun st =>
    (1.4142 : ℚ) * exp (-(st.1.getD 1 0)) * |st.1.getD 0 0 - st.2| + st.1.getD 1 0
  [("loss_range", terms.sum / num_boxes)]

/-- The prediction heads of the `monorange` module applied to a decoder hidden
state (`self.bbox_embed`, `self.class_embed`, `self.dim_embed_3d`,
`self.angle_embed`, `self.range_embed`, each indexed by the decoder layer as in
`monorange.py` lines 190–268).  The hidden-state type `E` and the MLPs
themselves are abstract; each head returns the feature vector it produces for
one query. -/
structure Heads (E : Type) where
  bbox_embed : ℕ → E → List ℚ
  class_embed : ℕ → E → List ℚ
  dim_embed_3d : ℕ → E → List ℚ
  angle_embed : ℕ → E → List ℚ
  range_embed : ℕ → E → List ℚ

/-- The reference-point update of `monorange.forward` (lines 190–195 and
224–229): `tmp += reference` when the reference has 6 components, otherwise
(asserted 2 components) only `tmp[..., :2] += reference`. -/
def monorange.addReference (tmp ref : List ℚ) : List ℚ :=
  if ref.length = 6 then List.zipWith (fun a b => a + b) tmp ref
  else List.zipWith (fun a b => a + b) (tmp.take 2) ref ++ tmp.drop 2

/-- Reference selection of `monorange.forward` (lines 217–221): layer 0 uses
`init_reference`, layer `lvl > 0` uses `inter_references[lvl - 1]`. -/
def monorange.referenceSel (init_reference : ℕ → ℕ → List ℚ)
    (inter_references : ℕ → ℕ → ℕ → List ℚ) (lvl b q : ℕ) : List ℚ :=
  if lvl = 0 then init_reference b q else inter_references (lvl - 1) b q

/-- The inputs one decoder branch of `monorange.forward` consumes: the per
(layer, batch, query) hidden states `hs`, the reference points, the prediction
heads, `torch.sigmoid` / `inverse_sigmoid` as abstract scalar functions, the
per-image calibration matrices `calibs[b][row][col]` and image sizes
`img_sizes[b][0] = W`, `img_sizes[b][1] = H`. -/
structure DecoderInputs (E : Type) where
  heads : Heads E
  sigmoid : ℚ → ℚ
  inverse_sigmoid : ℚ → ℚ
  hs : ℕ → ℕ → ℕ → E
  init_reference : ℕ → ℕ → List ℚ
  inter_references : ℕ → ℕ → ℕ → List ℚ
  calibs : ℕ → ℕ → ℕ → ℚ
  img_sizes : ℕ → ℕ → ℚ

/-- The `outputs_coord` computation of `monorange.forward` (lines 217–232): the bbox head
output plus the inverse-sigmoid reference, passed through sigmoid — the
3D-center-plus-2D-box vector of one query. -/
def monorange.outputs_coord {E : Type} (D : DecoderInputs E) (lvl b q : ℕ) : List ℚ :=
  (monorange.addReference (D.heads.bbox_embed lvl (D.hs lvl b q))
    ((monorange.referenceSel D.init_reference D.inter_references lvl b q).map
      D.inverse_sigmoid)).map D.sigmoid

/-- The `outputs_class` computation of `monorange.forward` (line 236): the class head applied
to the hidden state. -/
def monorange.outputs_class {E : Type} (D : DecoderInputs E) (lvl b q : ℕ) : List ℚ :=
  D.heads.class_embed lvl (D.hs lvl b q)

/-- The `box2d_height_norm` computation of `monorange.forward` (line 247): the sum of
components 4 and 5 of the sigmoid-activated box. -/
def monorange.box2d_height_norm {E : Type} (D : DecoderInputs E) (lvl b q : ℕ) : ℚ :=
  (monorange.outputs_coord D lvl b q).getD 4 0 + (monorange.outputs_coord D lvl b q).getD 5 0

/-- The `box2d_height` computation of `monorange.forward` (line 248):
`clamp(box2d_height_norm * img_sizes[:, 1], min=1.0)`. -/
def monorange.box2d_height {E : Type} (D : DecoderInputs E) (lvl b q : ℕ) : ℚ :=
  max (monorange.box2d_height_norm D lvl b q * D.img_sizes b 1) 1

/-- The `range_geo` computation of `monorange.forward` (line 249):
`size3d[:, :, 0] / box2d_height * calibs[:, 0, 0]`. -/
def monorange.range_geo {E : Type} (D : DecoderInputs E) (lvl b q : ℕ) : ℚ :=
  (D.heads.dim_embed_3d lvl (D.hs lvl b q)).getD 0 0 / monorange.box2d_height D lvl b q
    * D.calibs b 0 0

/-- The `range_ave` computation of `monorange.forward` (lines 262–263): the concatenation of
`range_geo + range_geo_err[:, :, 0]` and `range_geo_err[:, :, 1]` in the last
dimension. -/
def monorange.range_ave {E : Type} (D : DecoderInputs E) (lvl b q : ℕ) : List ℚ :=
  [monorange.range_geo D lvl b q + (D.heads.range_embed lvl (D.hs lvl b q)).getD 0 0,
   (D.heads.range_embed lvl (D.hs lvl b q)).getD 1 0]

/-- Materialises a per-(batch, query) function as a batch × query list tensor
(`torch.stack` over explicit index ranges). -/
def monorange.stackBQ (B Q : ℕ) (f : ℕ → ℕ → List ℚ) : List (List (List ℚ)) :=
  (List.range B).map fun b => (List.range Q).map fun q => f b q

/-- Embedding of `monorange.project_3d_to_2d` (`monorange.py` lines 303–317): takes the
stacked per-layer coordinates, keeps the last layer (`outputs_coord[-1]`), and
for every batch element and query projects the first three components
homogeneously through the 3 × 4 calibration matrix, dividing the first two
rows by the third. -/
def monorange.project_3d_to_2d (L B Q : ℕ) (outputs_coord : ℕ → ℕ → ℕ → List ℚ)
    (calibs : ℕ → ℕ → ℕ → ℚ) : List (List (List ℚ)) :=
  (List.range B).map fun i =>
    (List.range Q).map fun q =>
      let c := outputs_coord (L - 1) i q
      let x := c.getD 0 0
      let y := c.getD 1 0
      let z := c.getD 2 0
      let proj := fun r : ℕ =>
        calibs i r 0 * x + calibs i r 1 * y + calibs i r 2 * z + calibs i r 3
      [proj 0 / proj 2, proj 1 / proj 2]

/-- An entry of the output dictionary of `monorange.forward`: a rational
tensor, the range-map logits (abstract type `RM`), the region probabilities
(abstract type `RP`), or a list of nested dictionaries (for `inter_outputs`
and `aux_outputs`). -/
inductive OutEntry (RM RP : Type) : Type where
  | t3 (t : List (List (List ℚ))) : OutEntry RM RP
  | rmap (m : RM) : OutEntry RM RP
  | rprob (p : RP) : OutEntry RM RP
  | dicts (ds : List (List (String × OutEntry RM RP))) : OutEntry RM RP

/-- Embedding of `monorange._set_inter_loss` (`monorange.py` lines 329–332): zips the full
stacked 2D-branch class and coordinate tensors into per-layer dictionaries. -/
def monorange.set_inter_loss {RM RP : Type} (cls coord : List (List (List (List ℚ)))) :
    List (List (String × OutEntry RM RP)) :=
  (cls.zip coord).map fun x =>
    [("pred_logits", OutEntry.t3 x.1), ("pred_boxes", OutEntry.t3 x.2)]

/-- Embedding of `monorange._set_aux_loss` (`monorange.py` lines 319–327): zips all but the
last layer (`[:-1]`) of the stacked tensors into per-layer dictionaries. -/
def monorange.set_aux_loss {RM RP : Type}
    (cls coord dim angle rng : List (List (List (List ℚ)))) :
    List (List (String × OutEntry RM RP)) :=
  (cls.dropLast.zip (coord.dropLast.zip (dim.dropLast.zip
      (angle.dropLast.zip rng.dropLast)))).map fun x =>
    [("pred_logits", OutEntry.t3 x.1), ("pred_boxes", OutEntry.t3 x.2.1),
     ("pred_3d_dim", OutEntry.t3 x.2.2.1), ("pred_angle", OutEntry.t3 x.2.2.2.1),
     ("pred_range", OutEntry.t3 x.2.2.2.2)]

/-- The output assembly of `monorange.forward` (`monorange.py` lines 180–300).
`D2` carries the 2D-branch decoder data (`hs_2d` and its references, lines
183–206), `D3` the 3D branch (lines 217–269); `L2`, `L3` are the numbers of
decoder layers of the two branches, `B` the batch size, `Q` the number of
queries.  `pred_range_map_logits` and `region_probs` are the outputs of
`self.rangemap` and `self.region_head` (lines 157 and 166), carried opaquely.
The result is the dictionary `out` in insertion order, with `[-1]` selecting
the last stacked layer and `aux_outputs` present exactly when `self.aux_loss`
is set. -/
def monorange.forward_out {E RM RP : Type} (D2 D3 : DecoderInputs E) (L2 L3 B Q : ℕ)
    (pred_range_map_logits : RM) (region_probs : RP) (aux_loss : Bool) :
    List (String × OutEntry RM RP) :=
  let inter_coord := (List.range L2).map fun lvl =>
    monorange.stackBQ B Q (monorange.outputs_coord D2 lvl)
  let inter_class := (List.range L2).map fun lvl =>
    monorange.stackBQ B Q (monorange.outputs_class D2 lvl)
  let outputs_coord := (List.range L3).map fun lvl =>
    monorange.stackBQ B Q (monorange.outputs_coord D3 lvl)
  let outputs_class := (List.range L3).map fun lvl =>
    monorange.stackBQ B Q (monorange.outputs_class D3 lvl)
  let outputs_3d_dim := (List.range L3).map fun lvl =>
    monorange.stackBQ B Q (fun b q => D3.heads.dim_embed_3d lvl (D3.hs lvl b q))
  let outputs_range := (List.range L3).map fun lvl =>
    monorange.stackBQ B Q (monorange.range_ave D3 lvl)
  let outputs_angle := (List.range L3).map fun lvl =>
    monorange.stackBQ B Q (fun b q => D3.heads.angle_embed lvl (D3.hs lvl b q))
  let projected_2d_boxes :=
    monorange.project_3d_to_2d L3 B Q (monorange.outputs_coord D3) D3.calibs
  [("pred_logits", OutEntry.t3 (outputs_class.getD (L3 - 1) [])),
   ("pred_boxes", OutEntry.t3 (outputs_coord.getD (L3 - 1) [])),
   ("pred_3d_dim", OutEntry.t3 (outputs_3d_dim.getD (L3 - 1) [])),
   ("pred_range", OutEntry.t3 (outputs_range.getD (L3 - 1) [])),
   ("pred_angle", OutEntry.t3 (outputs_angle.getD (L3 - 1) [])),
   ("pred_range_map_logits", OutEntry.rmap pred_range_map_logits),
   ("pred_region_prob", OutEntry.rprob region_probs),
   ("projected_2d_boxes", OutEntry.t3 projected_2d_boxes),
   ("inter_outputs", OutEntry.dicts (monorange.set_inter_loss inter_class inter_coord))]
  ++ (if aux_loss then
        [("aux_outputs", OutEntry.dicts (monorange.set_aux_loss outputs_class
            outputs_coord outputs_3d_dim outputs_angle outputs_range))]
      else [])

/-- The calibration parameters the dataset reads from a `Calibration` object:
the fields `cu`, `cv`, `fu`, `fv` compared by the mixup guard of
`KITTI_Dataset.__getitem__` (`kitti_dataset.py` line 209). -/
structure Calibration where
  cu : ℚ
  cv : ℚ
  fu : ℚ
  fv : ℚ

/-- Embedding of `KITTI_Dataset.get_calib` (`kitti_dataset.py` lines 133–136): builds a
`Calibration` from the file `os.path.join(self.calib_dir, '000000.txt')`,
regardless of the requested index.  `loadCalib` stands for the (deterministic)
`Calibration` constructor reading a file path. -/
def KITTI.get_calib (loadCalib : String → Calibration) (calib_dir : String)
    (_idx : ℕ) : Calibration :=
  loadCalib (calib_dir ++ "/000000.txt")

/-- The calibration-equality test guarding the mixup branch
(`kitti_dataset.py` line 209):
`calib_temp.cu == calib.cu and calib_temp.cv == calib.cv and
 calib_temp.fu == calib.fu and calib_temp.fv == calib.fv`. -/
def KITTI.mixupCalibEq (calib_temp calib : Calibration) : Bool :=
  calib_temp.cu == calib.cu && calib_temp.cv == calib.cv &&
    calib_temp.fu == calib.fu && calib_temp.fv == calib.fv

/-- The fixed network input resolution `self.resolution = [1280, 384]` (W, H)
of `kitti_dataset.py` line 49. -/
def KITTI.resolution_w : ℚ := 1280

/-- Height component of the fixed resolution. -/
def KITTI.resolution_h : ℚ := 384

/-- The constant `self.max_objs = 50` (`kitti_dataset.py` line 46). -/
def KITTI.max_objs : ℕ := 50

/-- The clip `np.clip(x, 0, 1)`. -/
def KITTI.clip01 (x : ℚ) : ℚ := min (max x 0) 1

/-- One ground-truth object as the encoding loop of
`KITTI_Dataset.__getitem__` reads it (after the flip augmentation of lines
249–262 has already been applied to `box2d`): class name, difficulty string,
3D position, 3D height and the 2D box corners. -/
structure Object3D where
  cls_type : String
  level_str : String
  pos_x : ℚ
  pos_y : ℚ
  pos_z : ℚ
  h : ℚ
  box2d_x1 : ℚ
  box2d_y1 : ℚ
  box2d_x2 : ℚ
  box2d_y2 : ℚ

/-- The box data one iteration of the encoding loop stores at its slot. -/
structure EncRow where
  boxes : List ℚ
  boxes_3d : List ℚ
  size_2d : List ℚ

/-- The box-encoding part of one iteration of the ground-truth loop of
`KITTI_Dataset.__getitem__` (`kitti_dataset.py` lines 282–363): the filters
(writelist, unknown difficulty, depth `pos[-1] < 2` or `> 65`, projected
3D center outside the fixed 1280 × 384 resolution), the affine transformation
of the 2D box, the projected and transformed 3D center, the normalised box
encodings and the skip-or-clip handling of negative `l, r, t, b`.  `trans`
stands for `affine_transform(·, trans)`, `rect_to_img` for
`calib.rect_to_img` on a single point, `random_flip_flag`/`aug_calib`/`img_w`
feed the flip adjustment of line 319–320.  Returns `none` when the object is
skipped by a `continue`, otherwise the stored `boxes`, `boxes_3d` and
`size_2d` rows. -/
def KITTI.encodeObject (writelist : List String) (clip_2d : Bool)
    (trans : ℚ × ℚ → ℚ × ℚ) (rect_to_img : ℚ × ℚ × ℚ → ℚ × ℚ)
    (random_flip_flag aug_calib : Bool) (img_w : ℚ) (obj : Object3D) :
    Option EncRow :=
  if obj.cls_type ∉ writelist then none
  else if obj.level_str = "UnKnown" ∨ obj.pos_z < 2 then none
  else if obj.pos_z > 65 then none
  else
    let p1 := trans (obj.box2d_x1, obj.box2d_y1)
    let p2 := trans (obj.box2d_x2, obj.box2d_y2)
    let center_2d : ℚ × ℚ := ((p1.1 + p2.1) / 2, (p1.2 + p2.2) / 2)
    let ci := rect_to_img (obj.pos_x, obj.pos_y - obj.h / 2, obj.pos_z)
    let ci := if random_flip_flag ∧ ¬aug_calib then (img_w - ci.1, ci.2) else ci
    let center_3d := trans ci
    if center_3d.1 < 0 ∨ KITTI.resolution_w ≤ center_3d.1 then none
    else if center_3d.2 < 0 ∨ KITTI.resolution_h ≤ center_3d.2 then none
    else
      let w := p2.1 - p1.1
      let h := p2.2 - p1.2
      let cxn := center_2d.1 / KITTI.resolution_w
      let cyn := center_2d.2 / KITTI.resolution_h
      let swn := w / KITTI.resolution_w
      let shn := h / KITTI.resolution_h
      let c3xn := center_3d.1 / KITTI.resolution_w
      let c3yn := center_3d.2 / KITTI.resolution_h
      let l := c3xn - p1.1 / KITTI.resolution_w
      let r := p2.1 / KITTI.resolution_w - c3xn
      let t := c3yn - p1.2 / KITTI.resolution_h
      let b := p2.2 / KITTI.resolution_h - c3yn
      if l < 0 ∨ r < 0 ∨ t < 0 ∨ b < 0 then
        if clip_2d then
          some { boxes := [cxn, cyn, swn, shn],
                 boxes_3d := [c3xn, c3yn, KITTI.clip01 l, KITTI.clip01 r,
                              KITTI.clip01 t, KITTI.clip01 b],
                 size_2d := [w, h] }
        else none
      else
        some { boxes := [cxn, cyn, swn, shn],
               boxes_3d := [c3xn, c3yn, l, r, t, b],
               size_2d := [w, h] }

/-- The values one loop iteration of `KITTI_Dataset.__getitem__` writes into
slot `i` of the target arrays; the calibration type `C` is abstract. -/
structure Row (C : Type) where
  calib : C
  label : ℤ
  range_v : ℚ
  heading_bin_v : ℤ
  heading_res_v : ℚ
  size_2d_v : List ℚ
  size_3d_v : List ℚ
  src_size_3d_v : List ℚ
  boxes_v : List ℚ
  boxes_3d_v : List ℚ
  mask_2d_v : Bool

/-- The per-sample target arrays of `KITTI_Dataset.__getitem__`
(`kitti_dataset.py` lines 265–276 and the `targets` dict of lines 507–521),
each allocated with first dimension `max_objs`. -/
structure TargetArrays (C : Type) where
  calibs : List C
  indices : List ℤ
  labels : List ℤ
  range_arr : List ℚ
  heading_bin : List ℤ
  heading_res : List ℚ
  size_2d : List (List ℚ)
  size_3d : List (List ℚ)
  src_size_3d : List (List ℚ)
  boxes : List (List ℚ)
  boxes_3d : List (List ℚ)
  mask_2d : List Bool

/-- The zero-initialised target arrays (`np.zeros((self.max_objs, ...))`,
`kitti_dataset.py` lines 265–276); `c0` is the zero 3 × 4 calibration. -/
def KITTI.initTargets (C : Type) (c0 : C) : TargetArrays C :=
  { calibs := List.replicate KITTI.max_objs c0,
    indices := List.replicate KITTI.max_objs 0,
    labels := List.replicate KITTI.max_objs 0,
    range_arr := List.replicate KITTI.max_objs 0,
    heading_bin := List.replicate KITTI.max_objs 0,
    heading_res := List.replicate KITTI.max_objs 0,
    size_2d := List.replicate KITTI.max_objs [0, 0],
    size_3d := List.replicate KITTI.max_objs [0, 0, 0],
    src_size_3d := List.replicate KITTI.max_objs [0, 0, 0],
    boxes := List.replicate KITTI.max_objs [0, 0, 0, 0],
    boxes_3d := List.replicate KITTI.max_objs [0, 0, 0, 0, 0, 0],
    mask_2d := List.replicate KITTI.max_objs false }

/-- Writes the values of one encoded object into slot `i` of every target
array (the `...[i] = ...` assignments of the loop body); `indices` is never
assigned in the loop. -/
def KITTI.writeRow {C : Type} (a : TargetArrays C) (i : ℕ) (r : Row C) :
    TargetArrays C :=
  { calibs := a.calibs.set i r.calib,
    indices := a.indices,
    labels := a.labels.set i r.label,
    range_arr := a.range_arr.set i r.range_v,
    heading_bin := a.heading_bin.set i r.heading_bin_v,
    heading_res := a.heading_res.set i r.heading_res_v,
    size_2d := a.size_2d.set i r.size_2d_v,
    size_3d := a.size_3d.set i r.size_3d_v,
    src_size_3d := a.src_size_3d.set i r.src_size_3d_v,
    boxes := a.boxes.set i r.boxes_v,
    boxes_3d := a.boxes_3d.set i r.boxes_3d_v,
    mask_2d := a.mask_2d.set i r.mask_2d_v }

/-- The bound `object_num = len(objects) if len(objects) < self.max_objs else
self.max_objs` (`kitti_dataset.py` line 280). -/
def KITTI.object_num (n : ℕ) : ℕ := min n KITTI.max_objs

/-- The two encoding loops of `KITTI_Dataset.__getitem__`: the original-sample
loop over `range(object_num)` writing slot `i` (lines 282–389) and, when the
mixup branch fired, the loop over
`range(len(objects) if len(objects) < (max_objs - object_num) else
max_objs - object_num)` (line 403) writing slot `i + object_num`
(lines 404–502).  `enc1`/`enc2` stand for the loop bodies: `none` models a
`continue`, `some r` the slot assignments of the iteration. -/
def KITTI.encodeTargets {C O : Type} (c0 : C)
    (objs1 objs2 : List O) (enc1 enc2 : O → Option (Row C))
    (random_mix_flag : Bool) : TargetArrays C :=
  let objectNum := KITTI.object_num objs1.length
  let a1 := (objs1.take objectNum).enum.foldl
    (fun a p =>
      match enc1 p.2 with
      | none => a
      | some r => KITTI.writeRow a p.1 r)
    (KITTI.initTargets C c0)
  if random_mix_flag then
    let objectNumTemp := min objs2.length (KITTI.max_objs - objectNum)
    (objs2.take objectNumTemp).enum.foldl
      (fun a p =>
        match enc2 p.2 with
        | none => a
        | some r => KITTI.writeRow a (p.1 + objectNum) r)
      a1
  else a1

/-- A trivial concrete loss-function table, used to evaluate
`SetCriterion.get_loss` on explicit inputs. -/
def fnsConc : LossFns Unit Unit Unit :=
  { loss_labels := fun _ _ _ _ _ => [],
    loss_cardinality := fun _ _ _ _ => [],
    loss_boxes := fun _ _ _ _ => [],
    loss_ranges := fun _ _ _ _ => [],
    loss_dims := fun _ _ _ _ => [],
    loss_angles := fun _ _ _ _ => [],
    loss_3dcenter := fun _ _ _ _ => [],
    loss_range_map := fun _ _ _ _ => [],
    loss_region := fun _ _ _ _ => [],
    loss_cycle_consistency := fun _ _ _ _ => [] }

/-- A concrete decoder-input instance (hidden states carry no information, the
heads are constant), used to evaluate the forward embedding on explicit
numbers. -/
def Dconc : DecoderInputs Unit :=
  { heads :=
      { bbox_embed := fun _ _ => [0, 0, 0, 1, 1, 1],
        class_embed := fun _ _ => [1, 2],
        dim_embed_3d := fun _ _ => [3, 1, 1],
        angle_embed := fun _ _ => [0],
        range_embed := fun _ _ => [1, 2] },
    sigmoid := fun x => x,
    inverse_sigmoid := fun x => x,
    hs := fun _ _ _ => (),
    init_reference := fun _ _ => [0, 0],
    inter_references := fun _ _ _ => [0, 0, 0, 0, 0, 0],
    calibs := fun _ r c => if r = 0 ∧ c = 0 then 7 else if r = 2 ∧ c = 3 then 1 else 0,
    img_sizes := fun _ _ => 4 }

/-!
## Theorems

Helper lemmas first, then one theorem per specification claim (with its
witness or counterexample).
-/

/-- A fold whose step preserves an invariant preserves it overall. -/
theorem foldl_invariant {α β : Type} (P : α → Prop) (f : α → β → α) :
    ∀ (l : List β) (a : α), P a → (∀ x y, P x → P (f x y)) → P (l.foldl f a)
  | [], _, h, _ => h
  | x :: xs, a, h, hstep => foldl_invariant P f xs (f a x) (hstep a x h) hstep

/-- Flat-mapping over an enumerated list is flat-mapping the index range. -/
theorem enumFrom_flatMap_eq_range {α β : Type} (d : α) :
    ∀ (l : List α) (n : ℕ) (f : ℕ × α → List β),
      (l.enumFrom n).flatMap f =
        (List.range l.length).flatMap fun i => f (n + i, l.getD i d)
  | [], _, _ => rfl
  | a :: l, n, f => by
    rw [List.enumFrom_cons, List.flatMap_cons,
      enumFrom_flatMap_eq_range d l (n + 1) f, List.length_cons,
      List.range_succ_eq_map, List.flatMap_cons, List.flatMap_map]
    congr 1
    refine List.flatMap_congr fun i _ => ?_
    have h1 : (n + 1) + i = n + (i + 1) := by omega
    rw [h1]
    simp [Nat.succ_eq_add_one]

/-- Enumerated version of `enumFrom_flatMap_eq_range`. -/
theorem enum_flatMap_eq_range {α β : Type} (d : α) (l : List α) (f : ℕ × α → List β) :
    l.enum.flatMap f = (List.range l.length).flatMap fun i => f (i, l.getD i d) := by
  rw [List.enum, enumFrom_flatMap_eq_range d]
  simp only [Nat.zero_add]

/-- C7: `SetCriterion.get_loss` rejects every loss name outside the ten
supported keys with the assertion message of the source, and for each of the
ten keys returns exactly the corresponding loss function applied to the given
outputs, targets, indices and `num_boxes`. -/
theorem C7_get_loss_dispatch {O T I : Type} (fns : LossFns O T I)
    (name : String) (outputs : O) (targets : T) (indices : I)
    (num_boxes : ℚ) (log : Bool)
    (hname : name ∉ ["labels", "cardinality", "boxes", "ranges", "dims",
      "angles", "center", "range_map", "region", "cycle_consistency"]) :
    SetCriterion.get_loss fns name outputs targets indices num_boxes log =
        .error ("do you really want to compute " ++ name ++ " loss?") ∧
      SetCriterion.get_loss fns "labels" outputs targets indices num_boxes log =
        .ok (fns.loss_labels outputs targets indices num_boxes log) ∧
      SetCriterion.get_loss fns "cardinality" outputs targets indices num_boxes log =
        .ok (fns.loss_cardinality outputs targets indices num_boxes) ∧
      SetCriterion.get_loss fns "boxes" outputs targets indices num_boxes log =
        .ok (fns.loss_boxes outputs targets indices num_boxes) ∧
      SetCriterion.get_loss fns "ranges" outputs targets indices num_boxes log =
        .ok (fns.loss_ranges outputs targets indices num_boxes) ∧
      SetCriterion.get_loss fns "dims" outputs targets indices num_boxes log =
        .ok (fns.loss_dims outputs targets indices num_boxes) ∧
      SetCriterion.get_loss fns "angles" outputs targets indices num_boxes log =
        .ok (fns.loss_angles outputs targets indices num_boxes) ∧
      SetCriterion.get_loss fns "center" outputs targets indices num_boxes log =
        .ok (fns.loss_3dcenter outputs targets indices num_boxes) ∧
      SetCriterion.get_loss fns "range_map" outputs targets indices num_boxes log =
        .ok (fns.loss_range_map outputs targets indices num_boxes) ∧
      SetCriterion.get_loss fns "region" outputs targets indices num_boxes log =
        .ok (fns.loss_region outputs targets indices num_boxes) ∧
      SetCriterion.get_loss fns "cycle_consistency" outputs targets indices num_boxes log =
        .ok (fns.loss_cycle_consistency outputs targets indices num_boxes) := by
  refine ⟨?_, rfl, rfl, rfl, rfl, rfl, rfl, rfl, rfl, rfl, rfl⟩
  simp only [List.mem_cons, List.not_mem_nil, or_false, not_or] at hname
  obtain ⟨h1, h2, h3, h4, h5, h6, h7, h8, h9, h10⟩ := hname
  unfold SetCriterion.get_loss
  rw [if_neg h1, if_neg h2, if_neg h3, if_neg h4, if_neg h5, if_neg h6,
    if_neg h7, if_neg h8, if_neg h9, if_neg h10]

/-- Witness for C7 at the concrete name `"focal"`. -/
theorem C7_get_loss_dispatch_witness :
    SetCriterion.get_loss fnsConc "focal" () () () 1 true =
      .error ("do you really want to compute " ++ "focal" ++ " loss?") :=
  (C7_get_loss_dispatch fnsConc "focal" () () () 1 true (by decide)).1

/-- C8: `KITTI_Dataset.get_calib` ignores its index — every index loads the
calibration from the fixed file `000000.txt`, so any two samples receive the
same calibration and the calibration-equality test guarding the mixup branch
always succeeds. -/
theorem C8_get_calib_ignores_index (loadCalib : String → Calibration)
    (calib_dir : String) (i j : ℕ) :
    KITTI.get_calib loadCalib calib_dir i = KITTI.get_calib loadCalib calib_dir j ∧
      KITTI.mixupCalibEq (KITTI.get_calib loadCalib calib_dir i)
        (KITTI.get_calib loadCalib calib_dir j) = true := by
  refine ⟨rfl, ?_⟩
  simp [KITTI.mixupCalibEq, KITTI.get_calib]

/-- C9: the `num_boxes` of `SetCriterion.forward` is clamped to a minimum of
one — it is at least `1` (hence non-zero) for every batch, including batches
with zero ground-truth labels, and every loss invocation made by `forward`
receives exactly this clamped value (observed here by instrumenting
`get_loss` to report the `num_boxes` it is handed). -/
theorem C9_num_boxes_at_least_one {O T I : Type}
    (cfg : CriterionCfg) (training : Bool) (world_size : ℚ)
    (matcher : O → List T → ℕ → I) (labelsLen : T → ℕ)
    (outputs_main : O) (inter_outputs : List O) (aux_outputs : Option (List O))
    (targets : List T) (labelCounts : List ℕ) (group_num : ℕ) :
    (1 ≤ SetCriterion.num_boxes labelCounts group_num world_size ∧
      SetCriterion.num_boxes labelCounts group_num world_size ≠ 0) ∧
      ∀ kv ∈ SetCriterion.forward cfg training world_size matcher
          (fun _ _ _ _ nb _ => [("num_boxes", nb)]) labelsLen
          outputs_main inter_outputs aux_outputs targets,
        1 ≤ kv.2 ∧ kv.2 ≠ 0 := by
  have hmin : ∀ (lc : List ℕ) (g : ℕ),
      1 ≤ SetCriterion.num_boxes lc g world_size := by
    intro lc g
    exact le_max_right _ _
  refine ⟨⟨hmin labelCounts group_num,
    ne_of_gt (lt_of_lt_of_le zero_lt_one (hmin labelCounts group_num))⟩, ?_⟩
  intro kv hkv
  have hval : kv.2 = SetCriterion.num_boxes (targets.map labelsLen)
      (if training then cfg.group_num else 1) world_size := by
    cases aux_outputs with
    | none =>
      simp only [SetCriterion.forward, List.mem_append, List.mem_flatMap,
        List.mem_map, List.not_mem_nil, or_false, List.mem_cons,
        List.mem_singleton] at hkv
      rcases hkv with ⟨a, _, l, _, a2, ha2, heq⟩ | ⟨a, _, heq⟩
      · subst ha2
        rw [← heq]
      · rw [heq]
    | some auxs =>
      simp only [SetCriterion.forward, List.mem_append, List.mem_flatMap,
        List.mem_map, List.not_mem_nil, or_false, List.mem_cons,
        List.mem_singleton] at hkv
      rcases hkv with (⟨a, _, l, _, a2, ha2, heq⟩ | ⟨a, _, heq⟩) | ⟨a, _, l, hl, hkv0⟩
      · subst ha2
        rw [← heq]
      · rw [heq]
      · split at hkv0
        · exact absurd hkv0 (List.not_mem_nil kv)
        · simp only [List.mem_map, List.mem_singleton] at hkv0
          obtain ⟨a2, ha2, heq⟩ := hkv0
          subst ha2
          rw [← heq]
  rw [hval]
  exact ⟨hmin _ _, ne_of_gt (lt_of_lt_of_le zero_lt_one (hmin _ _))⟩

/-- Witness for C9: the instrumented forward at a concrete empty batch. -/
theorem C9_num_boxes_at_least_one_witness :
    1 ≤ (("num_boxes", max ((((0 : ℕ) : ℚ)) / 1) 1) : String × ℚ).2 ∧
      (("num_boxes", max ((((0 : ℕ) : ℚ)) / 1) 1) : String × ℚ).2 ≠ 0 :=
  (C9_num_boxes_at_least_one (O := Unit) (T := Unit) (I := Unit)
    { losses := ["labels"], inter_losses := [], group_num := 1 }
    true 1 (fun _ _ _ => ()) (fun _ => 0) () [] none [] [] 1).2
    ("num_boxes", max ((((0 : ℕ) : ℚ)) / 1) 1) (by
      simp [SetCriterion.forward, SetCriterion.num_boxes])

/-- C10: every target array returned by the label encoding has first dimension
exactly `max_objs = 50`, and the number of encoded slots never exceeds 50: the
original loop writes at most `object_num ≤ 50` slots and the mixup loop at
most `max_objs - object_num` further slots. -/
theorem C10_target_arrays_shape {C O : Type} (c0 : C)
    (objs1 objs2 : List O) (enc1 enc2 : O → Option (Row C))
    (random_mix_flag : Bool) :
    ((KITTI.encodeTargets c0 objs1 objs2 enc1 enc2 random_mix_flag).calibs.length
        = KITTI.max_objs ∧
      (KITTI.encodeTargets c0 objs1 objs2 enc1 enc2 random_mix_flag).indices.length
        = KITTI.max_objs ∧
      (KITTI.encodeTargets c0 objs1 objs2 enc1 enc2 random_mix_flag).labels.length
        = KITTI.max_objs ∧
      (KITTI.encodeTargets c0 objs1 objs2 enc1 enc2 random_mix_flag).range_arr.length
        = KITTI.max_objs ∧
      (KITTI.encodeTargets c0 objs1 objs2 enc1 enc2 random_mix_flag).heading_bin.length
        = KITTI.max_objs ∧
      (KITTI.encodeTargets c0 objs1 objs2 enc1 enc2 random_mix_flag).heading_res.length
        = KITTI.max_objs ∧
      (KITTI.encodeTargets c0 objs1 objs2 enc1 enc2 random_mix_flag).size_2d.length
        = KITTI.max_objs ∧
      (KITTI.encodeTargets c0 objs1 objs2 enc1 enc2 random_mix_flag).size_3d.length
        = KITTI.max_objs ∧
      (KITTI.encodeTargets c0 objs1 objs2 enc1 enc2 random_mix_flag).src_size_3d.length
        = KITTI.max_objs ∧
      (KITTI.encodeTargets c0 objs1 objs2 enc1 enc2 random_mix_flag).boxes.length
        = KITTI.max_objs ∧
      (KITTI.encodeTargets c0 objs1 objs2 enc1 enc2 random_mix_flag).boxes_3d.length
        = KITTI.max_objs ∧
      (KITTI.encodeTargets c0 objs1 objs2 enc1 enc2 random_mix_flag).mask_2d.length
        = KITTI.max_objs) ∧
      KITTI.object_num objs1.length ≤ KITTI.max_objs ∧
      KITTI.object_num objs1.length +
          min objs2.length (KITTI.max_objs - KITTI.object_num objs1.length)
        ≤ KITTI.max_objs := by
  constructor
  · have hstep : ∀ (enc : O → Option (Row C)) (ix : ℕ → ℕ)
        (x : TargetArrays C) (p : ℕ × O),
        (x.calibs.length = KITTI.max_objs ∧ x.indices.length = KITTI.max_objs ∧
          x.labels.length = KITTI.max_objs ∧ x.range_arr.length = KITTI.max_objs ∧
          x.heading_bin.length = KITTI.max_objs ∧
          x.heading_res.length = KITTI.max_objs ∧
          x.size_2d.length = KITTI.max_objs ∧ x.size_3d.length = KITTI.max_objs ∧
          x.src_size_3d.length = KITTI.max_objs ∧ x.boxes.length = KITTI.max_objs ∧
          x.boxes_3d.length = KITTI.max_objs ∧ x.mask_2d.length = KITTI.max_objs) →
        ((match enc p.2 with
            | none => x
            | some r => KITTI.writeRow x (ix p.1) r).calibs.length = KITTI.max_objs ∧
          (match enc p.2 with
            | none => x
            | some r => KITTI.writeRow x (ix p.1) r).indices.length = KITTI.max_objs ∧
          (match enc p.2 with
            | none => x
            | some r => KITTI.writeRow x (ix p.1) r).labels.length = KITTI.max_objs ∧
          (match enc p.2 with
            | none => x
            | some r => KITTI.writeRow x (ix p.1) r).range_arr.length = KITTI.max_objs ∧
          (match enc p.2 with
            | none => x
            | some r => KITTI.writeRow x (ix p.1) r).heading_bin.length = KITTI.max_objs ∧
          (match enc p.2 with
            | none => x
            | some r => KITTI.writeRow x (ix p.1) r).heading_res.length = KITTI.max_objs ∧
          (match enc p.2 with
            | none => x
            | some r => KITTI.writeRow x (ix p.1) r).size_2d.length = KITTI.max_objs ∧
          (match enc p.2 with
            | none => x
            | some r => KITTI.writeRow x (ix p.1) r).size_3d.length = KITTI.max_objs ∧
          (match enc p.2 with
            | none => x
            | some r => KITTI.writeRow x (ix p.1) r).src_size_3d.length = KITTI.max_objs ∧
          (match enc p.2 with
            | none => x
            | some r => KITTI.writeRow x (ix p.1) r).boxes.length = KITTI.max_objs ∧
          (match enc p.2 with
            | none => x
            | some r => KITTI.writeRow x (ix p.1) r).boxes_3d.length = KITTI.max_objs ∧
          (match enc p.2 with
            | none => x
            | some r => KITTI.writeRow x (ix p.1) r).mask_2d.length = KITTI.max_objs) := by
      intro enc ix x p hx
      cases henc : enc p.2 with
      | none => simpa using hx
      | some r => simpa [KITTI.writeRow] using hx
    unfold KITTI.encodeTargets
    have hinit := foldl_invariant
      (fun x : TargetArrays C =>
        x.calibs.length = KITTI.max_objs ∧ x.indices.length = KITTI.max_objs ∧
          x.labels.length = KITTI.max_objs ∧ x.range_arr.length = KITTI.max_objs ∧
          x.heading_bin.length = KITTI.max_objs ∧
          x.heading_res.length = KITTI.max_objs ∧
          x.size_2d.length = KITTI.max_objs ∧ x.size_3d.length = KITTI.max_objs ∧
          x.src_size_3d.length = KITTI.max_objs ∧ x.boxes.length = KITTI.max_objs ∧
          x.boxes_3d.length = KITTI.max_objs ∧ x.mask_2d.length = KITTI.max_objs)
      (fun a p =>
        match enc1 p.2 with
        | none => a
        | some r => KITTI.writeRow a p.1 r)
      ((objs1.take (KITTI.object_num objs1.length)).enum)
      (KITTI.initTargets C c0)
      (by simp [KITTI.initTargets])
      (fun x p hx => hstep enc1 (fun i => i) x p hx)
    cases random_mix_flag with
    | true =>
      exact foldl_invariant
        (fun x : TargetArrays C =>
          x.calibs.length = KITTI.max_objs ∧ x.indices.length = KITTI.max_objs ∧
            x.labels.length = KITTI.max_objs ∧ x.range_arr.length = KITTI.max_objs ∧
            x.heading_bin.length = KITTI.max_objs ∧
            x.heading_res.length = KITTI.max_objs ∧
            x.size_2d.length = KITTI.max_objs ∧ x.size_3d.length = KITTI.max_objs ∧
            x.src_size_3d.length = KITTI.max_objs ∧ x.boxes.length = KITTI.max_objs ∧
            x.boxes_3d.length = KITTI.max_objs ∧ x.mask_2d.length = KITTI.max_objs)
        _ _ _ hinit
        (fun x p hx => hstep enc2 (fun i => i + KITTI.object_num objs1.length) x p hx)
    | false => exact hinit
  · constructor
    · simp only [KITTI.object_num]
      omega
    · simp only [KITTI.object_num, KITTI.max_objs]
      omega

/-- Counterexample to C1 as stated: with `losses = ["cardinality"]` and
`inter_losses = []`, one intermediate output and no auxiliary outputs, the
loss dictionary computed by `SetCriterion.forward` differs from the one the
claim describes (which would contain a `cardinality_inter_0` entry): the
intermediate layers run `self.inter_losses`, not `self.losses`. -/
theorem C1_counterexample :
    SetCriterion.forward (O := Unit) (T := Unit) (I := Unit)
        { losses := ["cardinality"], inter_losses := [], group_num := 1 }
        true 1 (fun _ _ _ => ()) (fun name _ _ _ _ _ => [(name, 0)])
        (fun _ => 0) () [()] none [] ≠
      SetCriterion.forwardClaimed (O := Unit) (T := Unit) (I := Unit)
        { losses := ["cardinality"], inter_losses := [], group_num := 1 }
        true 1 (fun _ _ _ => ()) (fun name _ _ _ _ _ => [(name, 0)])
        (fun _ => 0) () [()] none [] := by
  decide

/-- C1 (amended): `SetCriterion.forward` matches and supervises in two steps —
it computes a fresh bipartite matching (`self.matcher`) for the main outputs
and computes every loss named in `self.losses` on it; for each entry of
`inter_outputs` it recomputes a fresh matching and computes the losses named
in `self.inter_losses` with keys suffixed `_inter_{i}`; for each entry of
`aux_outputs` it recomputes a fresh matching and repeats the `self.losses`
computation with keys suffixed `_{i}`, skipping the `range_map` and `region`
losses. -/
theorem C1_forward_loss_assembly {O T I : Type}
    (cfg : CriterionCfg) (training : Bool) (world_size : ℚ)
    (matcher : O → List T → ℕ → I)
    (getLoss : String → O → List T → I → ℚ → Bool → List (String × ℚ))
    (labelsLen : T → ℕ)
    (outputs_main : O) (inter_outputs : List O) (aux_outputs : Option (List O))
    (targets : List T) :
    SetCriterion.forward cfg training world_size matcher getLoss labelsLen
        outputs_main inter_outputs aux_outputs targets =
      ((List.range inter_outputs.length).flatMap fun i =>
        cfg.inter_losses.flatMap fun loss =>
          (getLoss loss (inter_outputs.getD i outputs_main) targets
              (matcher (inter_outputs.getD i outputs_main) targets
                (if training then cfg.group_num else 1))
              (SetCriterion.num_boxes (targets.map labelsLen)
                (if training then cfg.group_num else 1) world_size) true).map
            fun kv => (kv.1 ++ "_inter_" ++ toString i, kv.2))
      ++ (cfg.losses.flatMap fun loss =>
            getLoss loss outputs_main targets
              (matcher outputs_main targets (if training then cfg.group_num else 1))
              (SetCriterion.num_boxes (targets.map labelsLen)
                (if training then cfg.group_num else 1) world_size) true)
      ++ (match aux_outputs with
          | none => []
          | some auxs => (List.range auxs.length).flatMap fun i =>
              cfg.losses.flatMap fun loss =>
                if loss = "range_map" ∨ loss = "region" then []
                else
                  (getLoss loss (auxs.getD i outputs_main) targets
                      (matcher (auxs.getD i outputs_main) targets
                        (if training then cfg.group_num else 1))
                      (SetCriterion.num_boxes (targets.map labelsLen)
                        (if training then cfg.group_num else 1) world_size)
                      (if loss = "labels" then false else true)).map
                    fun kv => (kv.1 ++ "_" ++ toString i, kv.2)) := by
  cases aux_outputs with
  | none =>
    simp only [SetCriterion.forward, enum_flatMap_eq_range outputs_main]
  | some auxs =>
    simp only [SetCriterion.forward, enum_flatMap_eq_range outputs_main]

/-- Indexing a function materialised over `List.range`. -/
theorem getD_range_map {γ : Type} (f : ℕ → γ) (d : γ) (n i : ℕ) (h : i < n) :
    ((List.range n).map f).getD i d = f i := by
  simp [List.getD_eq_getElem?_getD, List.getElem?_range h]

/-- C2: the output dictionary assembled by `monorange.forward` carries the
last-layer class logits under `pred_logits`, the 3D-center-plus-2D-box vectors
under `pred_boxes`, the 3D dimensions under `pred_3d_dim`, the range/deviation
pairs under `pred_range`, the heading vectors under `pred_angle`, the
range-map logits under `pred_range_map_logits`, the region-segmentation
probabilities under `pred_region_prob` and the perspective projections under
`projected_2d_boxes`. -/
theorem C2_forward_output_keys {E RM RP : Type} (D2 D3 : DecoderInputs E)
    (L2 L3 B Q : ℕ) (pred_range_map_logits : RM) (region_probs : RP)
    (aux_loss : Bool) (hL3 : 0 < L3) :
    (monorange.forward_out D2 D3 L2 L3 B Q pred_range_map_logits region_probs
        aux_loss).lookup "pred_logits" =
      some (OutEntry.t3 (monorange.stackBQ B Q (monorange.outputs_class D3 (L3 - 1)))) ∧
    (monorange.forward_out D2 D3 L2 L3 B Q pred_range_map_logits region_probs
        aux_loss).lookup "pred_boxes" =
      some (OutEntry.t3 (monorange.stackBQ B Q (monorange.outputs_coord D3 (L3 - 1)))) ∧
    (monorange.forward_out D2 D3 L2 L3 B Q pred_range_map_logits region_probs
        aux_loss).lookup "pred_3d_dim" =
      some (OutEntry.t3 (monorange.stackBQ B Q
        (fun b q => D3.heads.dim_embed_3d (L3 - 1) (D3.hs (L3 - 1) b q)))) ∧
    (monorange.forward_out D2 D3 L2 L3 B Q pred_range_map_logits region_probs
        aux_loss).lookup "pred_range" =
      some (OutEntry.t3 (monorange.stackBQ B Q (monorange.range_ave D3 (L3 - 1)))) ∧
    (monorange.forward_out D2 D3 L2 L3 B Q pred_range_map_logits region_probs
        aux_loss).lookup "pred_angle" =
      some (OutEntry.t3 (monorange.stackBQ B Q
        (fun b q => D3.heads.angle_embed (L3 - 1) (D3.hs (L3 - 1) b q)))) ∧
    (monorange.forward_out D2 D3 L2 L3 B Q pred_range_map_logits region_probs
        aux_loss).lookup "pred_range_map_logits" =
      some (OutEntry.rmap pred_range_map_logits) ∧
    (monorange.forward_out D2 D3 L2 L3 B Q pred_range_map_logits region_probs
        aux_loss).lookup "pred_region_prob" =
      some (OutEntry.rprob region_probs) ∧
    (monorange.forward_out D2 D3 L2 L3 B Q pred_range_map_logits region_probs
        aux_loss).lookup "projected_2d_boxes" =
      some (OutEntry.t3 (monorange.project_3d_to_2d L3 B Q
        (monorange.outputs_coord D3) D3.calibs)) := by
  have hsub : L3 - 1 < L3 := Nat.sub_lt hL3 one_pos
  refine ⟨?_, ?_, ?_, ?_, ?_, ?_, ?_, ?_⟩ <;>
    simp [monorange.forward_out, List.lookup, getD_range_map _ _ _ _ hsub,
      List.getElem?_range hsub]

/-- Witness for C2 at a one-layer, one-query concrete instance. -/
theorem C2_forward_output_keys_witness :
    (monorange.forward_out Dconc Dconc 1 1 1 1 () () true).lookup "pred_logits" =
      some (OutEntry.t3 (monorange.stackBQ 1 1 (monorange.outputs_class Dconc (1 - 1)))) :=
  (C2_forward_output_keys Dconc Dconc 1 1 1 1 () () true (by decide)).1

/-- C4: `monorange.project_3d_to_2d` returns a batch × query × 2 tensor whose
entry at (i, q) is the perspective projection of the last layer's predicted
(x, y, z): with `h = P · (x, y, z, 1)` for the 3 × 4 calibration `P` of batch
element `i`, the point is `(h₀ / h₂, h₁ / h₂)`. -/
theorem C4_project_3d_to_2d (L B Q : ℕ) (outputs_coord : ℕ → ℕ → ℕ → List ℚ)
    (calibs : ℕ → ℕ → ℕ → ℚ) (i q : ℕ) (hi : i < B) (hq : q < Q) :
    (monorange.project_3d_to_2d L B Q outputs_coord calibs).length = B ∧
    ((monorange.project_3d_to_2d L B Q outputs_coord calibs).getD i []).length = Q ∧
    ((monorange.project_3d_to_2d L B Q outputs_coord calibs).getD i []).getD q [] =
      [(calibs i 0 0 * (outputs_coord (L - 1) i q).getD 0 0 +
          calibs i 0 1 * (outputs_coord (L - 1) i q).getD 1 0 +
          calibs i 0 2 * (outputs_coord (L - 1) i q).getD 2 0 + calibs i 0 3) /
        (calibs i 2 0 * (outputs_coord (L - 1) i q).getD 0 0 +
          calibs i 2 1 * (outputs_coord (L - 1) i q).getD 1 0 +
          calibs i 2 2 * (outputs_coord (L - 1) i q).getD 2 0 + calibs i 2 3),
       (calibs i 1 0 * (outputs_coord (L - 1) i q).getD 0 0 +
          calibs i 1 1 * (outputs_coord (L - 1) i q).getD 1 0 +
          calibs i 1 2 * (outputs_coord (L - 1) i q).getD 2 0 + calibs i 1 3) /
        (calibs i 2 0 * (outputs_coord (L - 1) i q).getD 0 0 +
          calibs i 2 1 * (outputs_coord (L - 1) i q).getD 1 0 +
          calibs i 2 2 * (outputs_coord (L - 1) i q).getD 2 0 + calibs i 2 3)] := by
  refine ⟨by simp [monorange.project_3d_to_2d], ?_, ?_⟩
  · simp only [monorange.project_3d_to_2d]
    rw [getD_range_map _ _ _ _ hi]
    simp
  · simp only [monorange.project_3d_to_2d]
    rw [getD_range_map _ _ _ _ hi, getD_range_map _ _ _ _ hq]

/-- Witness for C4: the projection evaluated on a concrete one-query batch. -/
theorem C4_project_3d_to_2d_witness :
    ((monorange.project_3d_to_2d 1 1 1 (monorange.outputs_coord Dconc)
        Dconc.calibs).getD 0 []).getD 0 [] = [0, 0] :=
  ((C4_project_3d_to_2d 1 1 1 (monorange.outputs_coord Dconc) Dconc.calibs 0 0
    (by decide) (by decide)).2.2).trans (by
      norm_num [Dconc, monorange.outputs_coord, monorange.addReference,
        monorange.referenceSel])

/-- C5: for every decoder layer, batch element and query, the first component
of the range prediction is the geometric range plus the learned residual:
`size3d₀ / max(box2d_height_norm * img_height, 1) * calib₀₀ + r_err₀`, where
`box2d_height_norm` is the sum of components 4 and 5 of the sigmoid-activated
predicted box; the second component is the range head's second output.  The
second conjunct places this per-layer value inside the stacked
`outputs_range` tensor used by `monorange.forward`. -/
theorem C5_range_geometric_plus_residual {E : Type} (D : DecoderInputs E)
    (L B Q lvl b q : ℕ) (hlvl : lvl < L) (hb : b < B) (hq : q < Q) :
    monorange.range_ave D lvl b q =
      [(D.heads.dim_embed_3d lvl (D.hs lvl b q)).getD 0 0 /
          max (((monorange.outputs_coord D lvl b q).getD 4 0 +
                (monorange.outputs_coord D lvl b q).getD 5 0) * D.img_sizes b 1) 1 *
          D.calibs b 0 0 +
        (D.heads.range_embed lvl (D.hs lvl b q)).getD 0 0,
       (D.heads.range_embed lvl (D.hs lvl b q)).getD 1 0] ∧
      ((((List.range L).map fun l0 =>
          monorange.stackBQ B Q (monorange.range_ave D l0)).getD lvl []).getD b []).getD q []
        = monorange.range_ave D lvl b q := by
  refine ⟨rfl, ?_⟩
  rw [getD_range_map _ _ _ _ hlvl]
  simp only [monorange.stackBQ]
  rw [getD_range_map _ _ _ _ hb, getD_range_map _ _ _ _ hq]

/-- Witness for C5: the range decomposition evaluated on concrete numbers
(`3 / max((1+1)·4, 1) · 7 + 1 = 29/8`, deviation `2`). -/
theorem C5_range_geometric_plus_residual_witness :
    monorange.range_ave Dconc 0 0 0 = [29 / 8, 2] :=
  ((C5_range_geometric_plus_residual Dconc 1 1 1 0 0 0 (by decide) (by decide)
    (by decide)).1).trans (by
      norm_num [Dconc, monorange.outputs_coord, monorange.addReference,
        monorange.referenceSel])

/-- The clip `np.clip(x, 0, 1)` is non-negative. -/
theorem clip01_nonneg (x : ℚ) : 0 ≤ KITTI.clip01 x :=
  le_min (le_max_right x 0) zero_le_one

/-- C3: every object the encoding loop stores has passed the filters (class in
the writelist, known difficulty, depth in [2, 65], projected 3D center inside
the fixed 1280 × 384 resolution); its `boxes` row is the transformed 2D box's
center and size divided componentwise by the resolution; its `boxes_3d` row
starts with the affine-transformed projected 3D center divided by the
resolution; when `clip_2d` is false the row continues with the distances
l, r, t, b from that normalised center to the normalised 2D-box corners; and
in every case the stored l, r, t, b are non-negative. -/
theorem C3_box_label_encoding (writelist : List String) (clip_2d : Bool)
    (trans : ℚ × ℚ → ℚ × ℚ) (rect_to_img : ℚ × ℚ × ℚ → ℚ × ℚ)
    (random_flip_flag aug_calib : Bool) (img_w : ℚ) (obj : Object3D)
    (row : EncRow)
    (henc : KITTI.encodeObject writelist clip_2d trans rect_to_img
        random_flip_flag aug_calib img_w obj = some row) :
    (obj.cls_type ∈ writelist ∧ obj.level_str ≠ "UnKnown" ∧
      2 ≤ obj.pos_z ∧ obj.pos_z ≤ 65) ∧
    (0 ≤ (trans (if random_flip_flag ∧ ¬aug_calib
          then (img_w - (rect_to_img (obj.pos_x, obj.pos_y - obj.h / 2, obj.pos_z)).1,
                (rect_to_img (obj.pos_x, obj.pos_y - obj.h / 2, obj.pos_z)).2)
          else rect_to_img (obj.pos_x, obj.pos_y - obj.h / 2, obj.pos_z))).1 ∧
      (trans (if random_flip_flag ∧ ¬aug_calib
          then (img_w - (rect_to_img (obj.pos_x, obj.pos_y - obj.h / 2, obj.pos_z)).1,
                (rect_to_img (obj.pos_x, obj.pos_y - obj.h / 2, obj.pos_z)).2)
          else rect_to_img (obj.pos_x, obj.pos_y - obj.h / 2, obj.pos_z))).1 <
        KITTI.resolution_w ∧
      0 ≤ (trans (if random_flip_flag ∧ ¬aug_calib
          then (img_w - (rect_to_img (obj.pos_x, obj.pos_y - obj.h / 2, obj.pos_z)).1,
                (rect_to_img (obj.pos_x, obj.pos_y - obj.h / 2, obj.pos_z)).2)
          else rect_to_img (obj.pos_x, obj.pos_y - obj.h / 2, obj.pos_z))).2 ∧
      (trans (if random_flip_flag ∧ ¬aug_calib
          then (img_w - (rect_to_img (obj.pos_x, obj.pos_y - obj.h / 2, obj.pos_z)).1,
                (rect_to_img (obj.pos_x, obj.pos_y - obj.h / 2, obj.pos_z)).2)
          else rect_to_img (obj.pos_x, obj.pos_y - obj.h / 2, obj.pos_z))).2 <
        KITTI.resolution_h) ∧
    row.boxes = [((trans (obj.box2d_x1, obj.box2d_y1)).1 +
          (trans (obj.box2d_x2, obj.box2d_y2)).1) / 2 / KITTI.resolution_w,
        ((trans (obj.box2d_x1, obj.box2d_y1)).2 +
          (trans (obj.box2d_x2, obj.box2d_y2)).2) / 2 / KITTI.resolution_h,
        ((trans (obj.box2d_x2, obj.box2d_y2)).1 -
          (trans (obj.box2d_x1, obj.box2d_y1)).1) / KITTI.resolution_w,
        ((trans (obj.box2d_x2, obj.box2d_y2)).2 -
          (trans (obj.box2d_x1, obj.box2d_y1)).2) / KITTI.resolution_h] ∧
    row.boxes_3d.take 2 = [(trans (if random_flip_flag ∧ ¬aug_calib
          then (img_w - (rect_to_img (obj.pos_x, obj.pos_y - obj.h / 2, obj.pos_z)).1,
                (rect_to_img (obj.pos_x, obj.pos_y - obj.h / 2, obj.pos_z)).2)
          else rect_to_img (obj.pos_x, obj.pos_y - obj.h / 2, obj.pos_z))).1 /
        KITTI.resolution_w,
        (trans (if random_flip_flag ∧ ¬aug_calib
          then (img_w - (rect_to_img (obj.pos_x, obj.pos_y - obj.h / 2, obj.pos_z)).1,
                (rect_to_img (obj.pos_x, obj.pos_y - obj.h / 2, obj.pos_z)).2)
          else rect_to_img (obj.pos_x, obj.pos_y - obj.h / 2, obj.pos_z))).2 /
        KITTI.resolution_h] ∧
    (clip_2d = false →
      row.boxes_3d = [(trans (if random_flip_flag ∧ ¬aug_calib
            then (img_w - (rect_to_img (obj.pos_x, obj.pos_y - obj.h / 2, obj.pos_z)).1,
                  (rect_to_img (obj.pos_x, obj.pos_y - obj.h / 2, obj.pos_z)).2)
            else rect_to_img (obj.pos_x, obj.pos_y - obj.h / 2, obj.pos_z))).1 /
          KITTI.resolution_w,
        (trans (if random_flip_flag ∧ ¬aug_calib
            then (img_w - (rect_to_img (obj.pos_x, obj.pos_y - obj.h / 2, obj.pos_z)).1,
                  (rect_to_img (obj.pos_x, obj.pos_y - obj.h / 2, obj.pos_z)).2)
            else rect_to_img (obj.pos_x, obj.pos_y - obj.h / 2, obj.pos_z))).2 /
          KITTI.resolution_h,
        (trans (if random_flip_flag ∧ ¬aug_calib
            then (img_w - (rect_to_img (obj.pos_x, obj.pos_y - obj.h / 2, obj.pos_z)).1,
                  (rect_to_img (obj.pos_x, obj.pos_y - obj.h / 2, obj.pos_z)).2)
            else rect_to_img (obj.pos_x, obj.pos_y - obj.h / 2, obj.pos_z))).1 /
          KITTI.resolution_w - (trans (obj.box2d_x1, obj.box2d_y1)).1 / KITTI.resolution_w,
        (trans (obj.box2d_x2, obj.box2d_y2)).1 / KITTI.resolution_w -
          (trans (if random_flip_flag ∧ ¬aug_calib
            then (img_w - (rect_to_img (obj.pos_x, obj.pos_y - obj.h / 2, obj.pos_z)).1,
                  (rect_to_img (obj.pos_x, obj.pos_y - obj.h / 2, obj.pos_z)).2)
            else rect_to_img (obj.pos_x, obj.pos_y - obj.h / 2, obj.pos_z))).1 /
          KITTI.resolution_w,
        (trans (if random_flip_flag ∧ ¬aug_calib
            then (img_w - (rect_to_img (obj.pos_x, obj.pos_y - obj.h / 2, obj.pos_z)).1,
                  (rect_to_img (obj.pos_x, obj.pos_y - obj.h / 2, obj.pos_z)).2)
            else rect_to_img (obj.pos_x, obj.pos_y - obj.h / 2, obj.pos_z))).2 /
          KITTI.resolution_h - (trans (obj.box2d_x1, obj.box2d_y1)).2 / KITTI.resolution_h,
        (trans (obj.box2d_x2, obj.box2d_y2)).2 / KITTI.resolution_h -
          (trans (if random_flip_flag ∧ ¬aug_calib
            then (img_w - (rect_to_img (obj.pos_x, obj.pos_y - obj.h / 2, obj.pos_z)).1,
                  (rect_to_img (obj.pos_x, obj.pos_y - obj.h / 2, obj.pos_z)).2)
            else rect_to_img (obj.pos_x, obj.pos_y - obj.h / 2, obj.pos_z))).2 /
          KITTI.resolution_h]) ∧
    (∀ x ∈ row.boxes_3d.drop 2, 0 ≤ x) := by
  simp only [KITTI.encodeObject] at henc
  by_cases hflip : random_flip_flag = true ∧ ¬aug_calib = true
  · simp only [if_pos hflip] at henc ⊢
    split_ifs at henc with h1 h2 h3 h4 h5 h6 h7 <;>
      try exact Option.noConfusion henc
    · obtain rfl := Option.some.inj henc
      push_neg at h2 h3 h4 h5
      refine ⟨⟨h1, h2.1, h2.2, h3⟩, ⟨h4.1, h4.2, h5.1, h5.2⟩, rfl, rfl,
        fun hc => absurd h7 (by simp [hc]), ?_⟩
      intro x hx
      simp only [List.drop_succ_cons, List.drop_zero, List.mem_cons,
        List.not_mem_nil, or_false] at hx
      rcases hx with rfl | rfl | rfl | rfl <;> exact clip01_nonneg _
    · obtain rfl := Option.some.inj henc
      push_neg at h2 h3 h4 h5 h6
      refine ⟨⟨h1, h2.1, h2.2, h3⟩, ⟨h4.1, h4.2, h5.1, h5.2⟩, rfl, rfl,
        fun _ => rfl, ?_⟩
      intro x hx
      simp only [List.drop_succ_cons, List.drop_zero, List.mem_cons,
        List.not_mem_nil, or_false] at hx
      rcases hx with rfl | rfl | rfl | rfl
      · exact h6.1
      · exact h6.2.1
      · exact h6.2.2.1
      · exact h6.2.2.2
  · simp only [if_neg hflip] at henc ⊢
    split_ifs at henc with h1 h2 h3 h4 h5 h6 h7 <;>
      try exact Option.noConfusion henc
    · obtain rfl := Option.some.inj henc
      push_neg at h2 h3 h4 h5
      refine ⟨⟨h1, h2.1, h2.2, h3⟩, ⟨h4.1, h4.2, h5.1, h5.2⟩, rfl, rfl,
        fun hc => absurd h7 (by simp [hc]), ?_⟩
      intro x hx
      simp only [List.drop_succ_cons, List.drop_zero, List.mem_cons,
        List.not_mem_nil, or_false] at hx
      rcases hx with rfl | rfl | rfl | rfl <;> exact clip01_nonneg _
    · obtain rfl := Option.some.inj henc
      push_neg at h2 h3 h4 h5 h6
      refine ⟨⟨h1, h2.1, h2.2, h3⟩, ⟨h4.1, h4.2, h5.1, h5.2⟩, rfl, rfl,
        fun _ => rfl, ?_⟩
      intro x hx
      simp only [List.drop_succ_cons, List.drop_zero, List.mem_cons,
        List.not_mem_nil, or_false] at hx
      rcases hx with rfl | rfl | rfl | rfl
      · exact h6.1
      · exact h6.2.1
      · exact h6.2.2.1
      · exact h6.2.2.2

/-- Witness for C3: a concrete Car at depth 10 whose encoded `boxes_3d`
distances are all non-negative. -/
theorem C3_box_label_encoding_witness : (0 : ℚ) ≤ 50 / 384 :=
  (C3_box_label_encoding ["Car"] false (fun p => p) (fun _ => (150, 150))
    false false 1280
    { cls_type := "Car", level_str := "Easy", pos_x := 0, pos_y := 0, pos_z := 10,
      h := 2, box2d_x1 := 100, box2d_y1 := 100, box2d_x2 := 200, box2d_y2 := 200 }
    { boxes := [150 / 1280, 150 / 384, 100 / 1280, 100 / 384],
      boxes_3d := [150 / 1280, 150 / 384, 50 / 1280, 50 / 1280, 50 / 384, 50 / 384],
      size_2d := [100, 100] }
    (by
      norm_num [KITTI.encodeObject, KITTI.resolution_w, KITTI.resolution_h]
      intro h
      exact absurd h (by decide))).2.2.2.2.2 (50 / 384) (by norm_num)

/-- Zipping the gathered source and target lists of a matched batch and
mapping a combiner is the same as combining per batch, when each image's
source and target index lists agree in length. -/
theorem matched_zip_enumFrom (exp : ℚ → ℚ)
    (pred_range target_range : List (List (List ℚ))) :
    ∀ (idx : List (List ℕ × List ℕ)) (n : ℕ),
      (∀ p ∈ idx, p.1.length = p.2.length) →
      ((((idx.enumFrom n).flatMap fun p => p.2.1.map fun s => (p.1, s)).map
          (fun bs => (pred_range.getD bs.1 []).getD bs.2 [])).zip
        (((idx.enumFrom n).flatMap fun p =>
            p.2.2.map fun t => (target_range.getD p.1 []).getD t []).map
          (fun row => row.getD 0 0))).map
        (fun st => (1.4142 : ℚ) * exp (-(st.1.getD 1 0)) *
            |st.1.getD 0 0 - st.2| + st.1.getD 1 0) =
      (idx.enumFrom n).flatMap fun p =>
        (p.2.1.zip p.2.2).map fun st =>
          (1.4142 : ℚ) * exp (-(((pred_range.getD p.1 []).getD st.1 []).getD 1 0)) *
              |((pred_range.getD p.1 []).getD st.1 []).getD 0 0 -
                ((target_range.getD p.1 []).getD st.2 []).getD 0 0| +
            ((pred_range.getD p.1 []).getD st.1 []).getD 1 0
  | [], _, _ => rfl
  | p :: idx, n, h => by
    simp only [List.enumFrom_cons, List.flatMap_cons, List.map_append,
      List.map_map]
    rw [List.zip_append (by simp [h p (List.mem_cons_self p idx)]),
      List.map_append, List.zip_map, List.map_map,
      matched_zip_enumFrom exp pred_range target_range idx (n + 1)
        (fun q hq => h q (List.mem_cons_of_mem p hq))]
    refine congrArg₂ (· ++ ·) ?_ rfl
    refine List.map_congr_left fun st _ => ?_
    cases st
    rfl

/-- C6: `SetCriterion.loss_ranges` returns a dictionary with the single key
`loss_range`, whose value is the sum over matched prediction/target pairs of
`1.4142 · exp(−σ) · |r_pred − r_gt| + σ` divided by `num_boxes`, where
`(r_pred, σ)` is the matched `pred_range` entry and `r_gt` the matched target
range. -/
theorem C6_loss_range_formula (exp : ℚ → ℚ)
    (pred_range target_range : List (List (List ℚ)))
    (indices : List (List ℕ × List ℕ)) (num_boxes : ℚ)
    (hlen : ∀ p ∈ indices, p.1.length = p.2.length) :
    SetCriterion.loss_ranges exp pred_range target_range indices num_boxes =
      [("loss_range",
        (indices.enum.map fun p =>
          ((p.2.1.zip p.2.2).map fun st =>
            (1.4142 : ℚ) *
                exp (-(((pred_range.getD p.1 []).getD st.1 []).getD 1 0)) *
                |((pred_range.getD p.1 []).getD st.1 []).getD 0 0 -
                  ((target_range.getD p.1 []).getD st.2 []).getD 0 0| +
              ((pred_range.getD p.1 []).getD st.1 []).getD 1 0).sum).sum /
          num_boxes)] := by
  unfold SetCriterion.loss_ranges SetCriterion.get_src_permutation_idx
  simp only [List.enum]
  rw [matched_zip_enumFrom exp pred_range target_range indices 0 hlen,
    List.flatMap_def, List.sum_flatten, List.map_map]
  rfl

/-- Witness for C6: one image, one matched pair, evaluated concretely
(`1.4142 · exp(0) · |5 − 3| + 0 = 2.8284`). -/
theorem C6_loss_range_formula_witness :
    SetCriterion.loss_ranges (fun _ => 1) [[[5, 0]]] [[[3]]] [([0], [0])] 1 =
      [("loss_range", 14142 / 5000)] :=
  (C6_loss_range_formula (fun _ => 1) [[[5, 0]]] [[[3]]] [([0], [0])] 1
    (by simp)).trans (by norm_num)

end MonoRange
